import Mathlib

/-!
Verification of the ObjectExporter plugin
(`Source/ObjectExporter/Private/ObjectExporterBPLibrary.cpp`).

The C++ code is shallowly embedded: every claim under study concerns which
arithmetic expression is computed and how many bytes each field occupies,
never float rounding, so `float`-typed values are carried as exact integers
(closed under the only operations the exporter applies to them: addition
and multiplication); machine integer narrowing is modelled with an explicit
`% 2^w`, and host facilities
(filename validation, file-writer creation, text-file saving, sRGB color
conversion) are modelled as an explicit environment.  Fallible calls return
`Option`: `none` marks an execution that reaches an invalid dereference of a
null engine pointer, `some (b, files)` a call that returns the boolean `b`
after writing `files`.
-/

namespace ObjectExporter

/-- FVector: three float components, carried exactly. -/
structure FVector where
  x : ℤ
  y : ℤ
  z : ℤ
deriving DecidableEq

/-- FVector4: the packed tangent-Z vector read from the static-mesh vertex
buffer (`VertexTangentZ`), with the handedness sign in `w`. -/
structure FVector4 where
  x : ℤ
  y : ℤ
  z : ℤ
  w : ℤ
deriving DecidableEq

/-- FVector2D: one UV channel entry. -/
structure FVector2D where
  x : ℤ
  y : ℤ
deriving DecidableEq

/-- FQuat. -/
structure FQuat where
  x : ℤ
  y : ℤ
  z : ℤ
  w : ℤ
deriving DecidableEq

/-- FRotator, as returned by `GetComponentRotation`. -/
structure FRotator where
  roll : ℤ
  yaw : ℤ
  pitch : ℤ
deriving DecidableEq

/-- FColor: the 8-bit sRGB color stored on a light component. -/
structure FColorB where
  r : ℕ
  g : ℕ
  b : ℕ
  a : ℕ
deriving DecidableEq

/-- FLinearColor. -/
structure FLinearColor where
  r : ℤ
  g : ℤ
  b : ℤ
  a : ℤ
deriving DecidableEq

/-- FTransform as serialized for the reference pose: rotation, translation,
3D scale. -/
structure FTransformQ where
  rotation : FQuat
  translation : FVector
  scale3D : FVector
deriving DecidableEq

/-- Componentwise sum (`FVector::operator+`). -/
def FVector.add (a b : FVector) : FVector :=
  ⟨a.x + b.x, a.y + b.y, a.z + b.z⟩

/-- Scalar product (`FVector::operator*(float)`). -/
def FVector.scale (v : FVector) (s : ℤ) : FVector :=
  ⟨v.x * s, v.y * s, v.z * s⟩

/-- FQuat::Vector / GetForwardVector: the image of the X axis under the
rotation, i.e. the camera's forward direction. -/
def FQuat.vector (q : FQuat) : FVector :=
  ⟨1 - 2 * (q.y * q.y + q.z * q.z),
   2 * (q.x * q.y + q.w * q.z),
   2 * (q.x * q.z - q.w * q.y)⟩

/-- FString::EndsWith, whose default search case is case-insensitive,
modelled on the character lists. -/
def fstrEndsWith (s sfx : String) : Bool :=
  List.isSuffixOf (sfx.data.map Char.toLower) (s.data.map Char.toLower)

/-- Characters after the first occurrence of a dot, or `none` when the
string holds no dot. -/
def charsAfterDot : List Char → Option (List Char)
  | [] => none
  | c :: rest => if c = '.' then some rest else charsAfterDot rest

/-- FString::Split on the first "." (search from start): the exporter keeps
the right part as the resource name; when no dot is found `Split` returns
false and the output keeps its default-constructed empty value. -/
def resourceNameOfPath (full : String) : String :=
  match charsAfterDot full.data with
  | some cs => String.mk cs
  | none => ""

/-- One field written to a binary `FArchive` stream. -/
inductive BinItem where
  | i32 (v : Int)
  | f32 (v : ℤ)
  | u16 (v : ℕ)
  | str (s : String)
deriving DecidableEq

/-- Bytes occupied by one serialized field (FString: int32 length cue plus
the characters and the terminator). -/
def itemSize : BinItem → ℕ
  | .i32 _ => 4
  | .f32 _ => 4
  | .u16 _ => 2
  | .str s => 4 + s.length + 1

/-- Total byte size of a binary stream. -/
def streamSize (items : List BinItem) : ℕ :=
  (items.map itemSize).sum

/-- `FArchive << FVector`: X, Y, Z. -/
def serFVector (v : FVector) : List BinItem :=
  [.f32 v.x, .f32 v.y, .f32 v.z]

/-- `FArchive << FVector2D`: X, Y. -/
def serFVector2D (v : FVector2D) : List BinItem :=
  [.f32 v.x, .f32 v.y]

/-- `FArchive << FQuat`: X, Y, Z, W. -/
def serFQuat (q : FQuat) : List BinItem :=
  [.f32 q.x, .f32 q.y, .f32 q.z, .f32 q.w]

/-- `FArchive << FLinearColor`: R, G, B, A. -/
def serFLinearColor (c : FLinearColor) : List BinItem :=
  [.f32 c.r, .f32 c.g, .f32 c.b, .f32 c.a]

/-- `FArchive << FTransform`: rotation, translation, scale. -/
def serFTransform (t : FTransformQ) : List BinItem :=
  serFQuat t.rotation ++ serFVector t.translation ++ serFVector t.scale3D

/-- One renderable vertex: the position, packed tangent-Z and first UV
channel read at the same index of the parallel LOD vertex buffers. -/
structure MeshVertex where
  position : FVector
  tangentZ : FVector4
  uv : FVector2D
deriving DecidableEq

/-- One LOD resource: parallel vertex buffers plus the index buffer, whose
entries are logical uint32 values. -/
structure MeshLOD where
  vertices : List MeshVertex
  indices : List ℕ
deriving DecidableEq

/-- UStaticMesh: `RenderData` is a pointer that may be null. -/
structure UStaticMesh where
  name : String
  pathName : String
  renderData : Option (List MeshLOD)
deriving DecidableEq

/-- Static-mesh binary path, lines 150-152:
`Normal = FVector(TangentZ.X, TangentZ.Y, TangentZ.Z) * TangentZ.W`. -/
def staticMeshNormal (t : FVector4) : FVector :=
  FVector.scale ⟨t.x, t.y, t.z⟩ t.w

/-- Skeletal-mesh binary path, lines 228-230:
`Normal = FVector(TangentZ.X, TangentZ.Y, TangentZ.Z)` (no W factor). -/
def skeletalMeshNormal (t : FVector4) : FVector :=
  ⟨t.x, t.y, t.z⟩

/-- `uint16 Index = Indices[iIndex]`: the C++ narrowing conversion from
uint32 keeps the value modulo 2^16. -/
def indexToUInt16 (i : ℕ) : BinItem :=
  .u16 (i % 65536)

/-- Per-vertex fields of the `.stm` stream: position, normal, UV. -/
def staticVertexItems (v : MeshVertex) : List BinItem :=
  serFVector v.position ++ serFVector (staticMeshNormal v.tangentZ) ++ serFVector2D v.uv

/-- Per-vertex fields of the `.skm` stream: position, normal, UV. -/
def skeletalVertexItems (v : MeshVertex) : List BinItem :=
  serFVector v.position ++ serFVector (skeletalMeshNormal v.tangentZ) ++ serFVector2D v.uv

/-- Binary encoding of one static-mesh LOD: int32 vertex count, the vertex
fields, int32 index count, one uint16 per index. -/
def staticLODItems (lod : MeshLOD) : List BinItem :=
  [BinItem.i32 (lod.vertices.length : Int)]
    ++ lod.vertices.flatMap staticVertexItems
    ++ [BinItem.i32 (lod.indices.length : Int)]
    ++ lod.indices.map indexToUInt16

/-- Binary encoding of one skeletal-mesh LOD, same layout with the skeletal
normal convention. -/
def skeletalLODItems (lod : MeshLOD) : List BinItem :=
  [BinItem.i32 (lod.vertices.length : Int)]
    ++ lod.vertices.flatMap skeletalVertexItems
    ++ [BinItem.i32 (lod.indices.length : Int)]
    ++ lod.indices.map indexToUInt16

/-- The `.stm` loop body runs for the first LOD and then breaks
("now save only lod 0"); an empty LOD array writes nothing. -/
def stmStream (lods : List MeshLOD) : List BinItem :=
  match lods with
  | [] => []
  | lod0 :: _ => staticLODItems lod0

/-- The `.skm` loop likewise breaks after the first LOD. -/
def skmStream (lods : List MeshLOD) : List BinItem :=
  match lods with
  | [] => []
  | lod0 :: _ => skeletalLODItems lod0

/-- One vertex of the JSON document: the position only. -/
structure JsonVertex where
  x : ℤ
  y : ℤ
  z : ℤ
deriving DecidableEq

/-- One per-LOD entry of the JSON document; index values are stored as plain
numbers, with no 16-bit narrowing. -/
structure JsonLODData where
  lod : ℕ
  vertexCount : ℕ
  vertices : List JsonVertex
  indexCount : ℕ
  indices : List ℕ
deriving DecidableEq

/-- The JSON document produced by the static-mesh JSON branch (the constant
empty `VertexFormat` array is omitted from the model). -/
structure JsonStaticMeshDoc where
  fileVersion : Int
  meshName : String
  lodCount : ℕ
  lods : List JsonLODData
deriving DecidableEq

/-- The JSON document produced by `ExportCamera`. -/
structure JsonCameraDoc where
  fileVersion : Int
  location : FVector
  rotation : FRotator
  fov : ℤ
  aspect : ℤ
deriving DecidableEq

/-- JSON entry for one LOD at its running index. -/
def jsonLODOfMeshLOD (i : ℕ) (lod : MeshLOD) : JsonLODData :=
  { lod := i
    vertexCount := lod.vertices.length
    vertices := lod.vertices.map (fun v => ⟨v.position.x, v.position.y, v.position.z⟩)
    indexCount := lod.indices.length
    indices := lod.indices }

/-- The JSON body of the static-mesh JSON branch: `LODCount` and one entry
per LOD of the source array, the loop running over every LOD. -/
def staticMeshJsonDoc (meshName : String) (lods : List MeshLOD) : JsonStaticMeshDoc :=
  { fileVersion := 1
    meshName := meshName
    lodCount := lods.length
    lods := lods.enum.map (fun p => jsonLODOfMeshLOD p.1 p.2) }

/-- Content of one produced file. -/
inductive FileContent where
  | bin (items : List BinItem)
  | jsonMesh (doc : JsonStaticMeshDoc)
  | jsonCamera (doc : JsonCameraDoc)
deriving DecidableEq

/-- A destination path paired with the content written there. -/
abbrev FileWrite := String × FileContent

/-- Host facilities consumed by the exporter: filename validation, binary
file-writer creation, text-file saving, the engine sRGB-to-linear color
table, and the project Saved directory. -/
structure Env where
  isFilenameValidForSaving : String → Bool
  createFileWriterOk : String → Bool
  saveStringToFileOk : String → Bool
  projectSavedDir : String
  fromSRGBColor : FColorB → FLinearColor

/-- `UObjectExporterBPLibrary::ExportStaticMesh`.  `none` is the execution
that dereferences a null `RenderData` in the `.stm` branch (line 139, with
no null check mirroring the JSON branch's line 58). -/
def exportStaticMesh (env : Env) (staticMesh : Option UStaticMesh)
    (fullFilePathName : String) : Option (Bool × List FileWrite) :=
  if env.isFilenameValidForSaving fullFilePathName = true then
    match staticMesh with
    | some mesh =>
      if fstrEndsWith fullFilePathName ".json" = true then
        match mesh.renderData with
        | some lods =>
          if env.saveStringToFileOk fullFilePathName = true then
            some (true, [(fullFilePathName,
              FileContent.jsonMesh (staticMeshJsonDoc mesh.name lods))])
          else some (false, [])
        | none => some (false, [])
      else if fstrEndsWith fullFilePathName ".stm" = true then
        if env.createFileWriterOk fullFilePathName = true then
          match mesh.renderData with
          | some lods =>
            -- the loop writes LOD 0 and breaks; the function then falls
            -- through to the final `return false` (line 184)
            some (false, [(fullFilePathName, FileContent.bin (stmStream lods))])
          | none => none
        else some (false, [])
      else some (false, [])
    | none => some (false, [])
  else some (false, [])

/-- USkeletalMesh: `GetResourceForRendering` may return null. -/
structure USkeletalMeshData where
  name : String
  pathName : String
  renderResource : Option (List MeshLOD)
deriving DecidableEq

/-- `UObjectExporterBPLibrary::ExportSkeletalMesh`.  The JSON branch builds
only a `FileVersion` object and never serializes or saves it. -/
def exportSkeletalMesh (env : Env) (skeletalMesh : Option USkeletalMeshData)
    (fullFilePathName : String) : Option (Bool × List FileWrite) :=
  if env.isFilenameValidForSaving fullFilePathName = true then
    match skeletalMesh with
    | some mesh =>
      if fstrEndsWith fullFilePathName ".json" = true then
        some (false, [])
      else if fstrEndsWith fullFilePathName ".skm" = true then
        if env.createFileWriterOk fullFilePathName = true then
          match mesh.renderResource with
          | some lods =>
            some (false, [(fullFilePathName, FileContent.bin (skmStream lods))])
          | none => none
        else some (false, [])
      else some (false, [])
    | none => some (false, [])
  else some (false, [])

/-- FMeshBoneInfo: bone name and parent index, −1 for a root. -/
structure FMeshBoneInfo where
  name : String
  parentIndex : Int
deriving DecidableEq

/-- USkeleton reference-skeleton data: raw bone info and raw bone pose. -/
structure USkeletonData where
  boneInfos : List FMeshBoneInfo
  bonePose : List FTransformQ
deriving DecidableEq

/-- `.skt` stream: bone count and per-bone name/parent, then pose count and
per-bone transform, the two counts written in two separate passes. -/
def skeletonStream (s : USkeletonData) : List BinItem :=
  [BinItem.i32 (s.boneInfos.length : Int)]
    ++ s.boneInfos.flatMap (fun b => [BinItem.str b.name, BinItem.i32 b.parentIndex])
    ++ [BinItem.i32 (s.bonePose.length : Int)]
    ++ s.bonePose.flatMap serFTransform

/-- `UObjectExporterBPLibrary::ExportSkeleton`. -/
def exportSkeleton (env : Env) (skeleton : Option USkeletonData)
    (fullFilePathName : String) : Option (Bool × List FileWrite) :=
  if env.isFilenameValidForSaving fullFilePathName = true then
    match skeleton with
    | some s =>
      if fstrEndsWith fullFilePathName ".json" = true then
        some (false, [])
      else if fstrEndsWith fullFilePathName ".skt" = true then
        if env.createFileWriterOk fullFilePathName = true then
          some (false, [(fullFilePathName, FileContent.bin (skeletonStream s))])
        else some (false, [])
      else some (false, [])
    | none => some (false, [])
  else some (false, [])

/-- FRawAnimSequenceTrack: per-bone key arrays. -/
structure FRawAnimSequenceTrack where
  scaleKeys : List FVector
  rotKeys : List FQuat
  posKeys : List FVector
deriving DecidableEq

/-- UAnimSequence raw animation data. -/
structure UAnimSequenceData where
  rawAnimationData : List FRawAnimSequenceTrack
deriving DecidableEq

/-- `FArchive << TArray<FVector>`: int32 element count then the elements. -/
def serVectorArray (l : List FVector) : List BinItem :=
  [BinItem.i32 (l.length : Int)] ++ l.flatMap serFVector

/-- `FArchive << TArray<FQuat>`: int32 element count then the elements. -/
def serQuatArray (l : List FQuat) : List BinItem :=
  [BinItem.i32 (l.length : Int)] ++ l.flatMap serFQuat

/-- `.anm` stream: int32 track count, then per track the scale, rotation and
position key arrays in that fixed order. -/
def animStream (a : UAnimSequenceData) : List BinItem :=
  [BinItem.i32 (a.rawAnimationData.length : Int)]
    ++ a.rawAnimationData.flatMap
      (fun t => serVectorArray t.scaleKeys ++ serQuatArray t.rotKeys
        ++ serVectorArray t.posKeys)

/-- `UObjectExporterBPLibrary::ExportAnimSequence`. -/
def exportAnimSequence (env : Env) (animSequence : Option UAnimSequenceData)
    (fullFilePathName : String) : Option (Bool × List FileWrite) :=
  if env.isFilenameValidForSaving fullFilePathName = true then
    match animSequence with
    | some a =>
      if fstrEndsWith fullFilePathName ".json" = true then
        some (false, [])
      else if fstrEndsWith fullFilePathName ".anm" = true then
        if env.createFileWriterOk fullFilePathName = true then
          some (false, [(fullFilePathName, FileContent.bin (animStream a))])
        else some (false, [])
      else some (false, [])
    | none => some (false, [])
  else some (false, [])

/-- UCameraComponent state read by `ExportCamera`: world location and
rotation, field of view and the aspect value. -/
structure UCameraComponent where
  location : FVector
  rotator : FRotator
  fieldOfView : ℤ
  aspect : ℤ
deriving DecidableEq

/-- The camera JSON document: location, rotation, FOV, aspect. -/
def cameraJsonDoc (cam : UCameraComponent) : JsonCameraDoc :=
  { fileVersion := 1
    location := cam.location
    rotation := cam.rotator
    fov := cam.fieldOfView
    aspect := cam.aspect }

/-- `UObjectExporterBPLibrary::ExportCamera`: writes the JSON document to
whatever destination passed filename validation; no suffix is inspected. -/
def exportCamera (env : Env) (camera : Option UCameraComponent)
    (fullFilePathName : String) : Option (Bool × List FileWrite) :=
  if env.isFilenameValidForSaving fullFilePathName = true then
    match camera with
    | some cam =>
      if env.saveStringToFileOk fullFilePathName = true then
        some (true, [(fullFilePathName, FileContent.jsonCamera (cameraJsonDoc cam))])
      else some (false, [])
    | none => some (false, [])
  else some (false, [])

/-- World transform of a scene component (`GetComponentToWorld`): the
location and rotation read by `ExportMap` (the unused `Rotator` local is
omitted). -/
structure FTransformW where
  location : FVector
  rotation : FQuat
deriving DecidableEq

/-- One enumerated ACameraActor with its camera component (an ACameraActor
carries its UCameraComponent by construction, so the `check` on the
component cast never fires for the enumerated class). -/
structure ACameraActor where
  transform : FTransformW
  fieldOfView : ℤ
  aspect : ℤ
deriving DecidableEq

/-- One enumerated ADirectionalLight with its light component. -/
structure ADirectionalLightActor where
  transform : FTransformW
  lightColor : FColorB
  intensity : ℤ
deriving DecidableEq

/-- One enumerated AStaticMeshActor with its static-mesh component. -/
structure AStaticMeshActorData where
  transform : FTransformW
  staticMesh : UStaticMesh
deriving DecidableEq

/-- One enumerated ASkeletalMeshActor with its skeletal-mesh component; the
skeleton hangs off the mesh and `AnimationData.AnimToPlay` cast to
UAnimSequence may be null. -/
structure ASkeletalMeshActorData where
  transform : FTransformW
  skeletalMesh : USkeletalMeshData
  skeleton : USkeletonData
  animToPlay : Option UAnimSequenceData
deriving DecidableEq

/-- The live world as enumerated by the four `GetAllActorsOfClass` queries,
in the order the code issues them. -/
structure UWorld where
  cameras : List ACameraActor
  directionalLights : List ADirectionalLightActor
  staticMeshActors : List AStaticMeshActorData
  skeletalMeshActors : List ASkeletalMeshActorData
deriving DecidableEq

/-- Composite-file camera record (lines 469-486): location, the look-at
target `Location + Direction * 100.0f` with the forward direction of the
component rotation, FOV, aspect. -/
def cameraRecord (a : ACameraActor) : List BinItem :=
  let location := a.transform.location
  let direction := a.transform.rotation.vector
  let target := location.add (direction.scale 100)
  serFVector location ++ serFVector target
    ++ [BinItem.f32 a.fieldOfView, BinItem.f32 a.aspect]

/-- Composite-file directional-light record: linear color (from the sRGB
component color), forward direction, intensity. -/
def lightRecord (env : Env) (a : ADirectionalLightActor) : List BinItem :=
  let direction := a.transform.rotation.vector
  let color := env.fromSRGBColor a.lightColor
  serFLinearColor color ++ serFVector direction ++ [BinItem.f32 a.intensity]

/-- Composite-file static-mesh instance record: rotation, location, resource
name split off the mesh path name. -/
def staticMeshRecord (a : AStaticMeshActorData) : List BinItem :=
  serFQuat a.transform.rotation ++ serFVector a.transform.location
    ++ [BinItem.str (resourceNameOfPath a.staticMesh.pathName)]

/-- Composite-file skeletal-mesh instance record, identical in shape. -/
def skeletalMeshRecord (a : ASkeletalMeshActorData) : List BinItem :=
  serFQuat a.transform.rotation ++ serFVector a.transform.location
    ++ [BinItem.str (resourceNameOfPath a.skeletalMesh.pathName)]

/-- The composite `.map` stream, written in the fixed category order
cameras, directional lights, static-mesh instances, skeletal-mesh
instances, each section an int32 count followed by that many records. -/
def mapStream (env : Env) (w : UWorld) : List BinItem :=
  BinItem.i32 (w.cameras.length : Int)
    :: (w.cameras.flatMap cameraRecord
      ++ (BinItem.i32 (w.directionalLights.length : Int)
        :: (w.directionalLights.flatMap (lightRecord env)
          ++ (BinItem.i32 (w.staticMeshActors.length : Int)
            :: (w.staticMeshActors.flatMap staticMeshRecord
              ++ (BinItem.i32 (w.skeletalMeshActors.length : Int)
                :: w.skeletalMeshActors.flatMap skeletalMeshRecord))))))

/-- Side-output files triggered for one static-mesh instance: the per-asset
`.stm` export under the Saved directory (texture exports are delegated to
the external asset-export collaborator and carry no modelled state). -/
def sideFilesOfStaticActor (env : Env) (a : AStaticMeshActorData) :
    Option (List FileWrite) :=
  let resourceName := resourceNameOfPath a.staticMesh.pathName
  (exportStaticMesh env (some a.staticMesh)
    (env.projectSavedDir ++ "Bin/StaticMesh/" ++ resourceName ++ ".stm")).map Prod.snd

/-- Side-output files for one skeletal-mesh instance: the `.skm`, `.skt` and
`.anm` exports, in the order the code issues them. -/
def sideFilesOfSkeletalActor (env : Env) (a : ASkeletalMeshActorData) :
    Option (List FileWrite) :=
  let resourceName := resourceNameOfPath a.skeletalMesh.pathName
  match exportSkeletalMesh env (some a.skeletalMesh)
          (env.projectSavedDir ++ "Bin/SkeletalMesh/" ++ resourceName ++ ".skm"),
        exportSkeleton env (some a.skeleton)
          (env.projectSavedDir ++ "Bin/SkeletalMesh/Skeleton/" ++ resourceName ++ ".skt"),
        exportAnimSequence env a.animToPlay
          (env.projectSavedDir ++ "Bin/SkeletalMesh/AnimSequence/" ++ resourceName ++ ".anm") with
  | some r1, some r2, some r3 => some (r1.2 ++ r2.2 ++ r3.2)
  | _, _, _ => none

/-- `UObjectExporterBPLibrary::ExportMap`: invalid world context returns
false; only a `.map` destination is written (no filename-validation call in
this function); a null dereference inside a side export is fatal for the
whole call. -/
def exportMap (env : Env) (worldContextObject : Option UWorld)
    (fullFilePathName : String) : Option (Bool × List FileWrite) :=
  match worldContextObject with
  | none => some (false, [])
  | some w =>
    if fstrEndsWith fullFilePathName ".map" = true then
      if env.createFileWriterOk fullFilePathName = true then
        match w.staticMeshActors.mapM (sideFilesOfStaticActor env),
              w.skeletalMeshActors.mapM (sideFilesOfSkeletalActor env) with
        | some smFiles, some skFiles =>
          some (true, (fullFilePathName, FileContent.bin (mapStream env w))
            :: (smFiles.flatten ++ skFiles.flatten))
        | _, _ => none
      else some (false, [])
    else some (false, [])

/-- Reader step: one int32 item. -/
def readInt32 : List BinItem → Option (Int × List BinItem)
  | BinItem.i32 v :: rest => some (v, rest)
  | _ => none

/-- Reader step: skip a known number of items. -/
def skipItems : ℕ → List BinItem → Option (List BinItem)
  | 0, l => some l
  | _ + 1, [] => none
  | n + 1, _ :: l => skipItems n l

/-- Read back the four section counts of a composite stream, skipping the
eight items of each record, and demand that the stream ends after the last
section. -/
def readSectionCounts (items : List BinItem) : Option (Int × Int × Int × Int) := do
  let (c1, r1) ← readInt32 items
  let r1s ← skipItems (8 * c1.toNat) r1
  let (c2, r2) ← readInt32 r1s
  let r2s ← skipItems (8 * c2.toNat) r2
  let (c3, r3) ← readInt32 r2s
  let r3s ← skipItems (8 * c3.toNat) r3
  let (c4, r4) ← readInt32 r3s
  let r4s ← skipItems (8 * c4.toNat) r4
  if r4s.isEmpty then some (c1, c2, c3, c4) else none

section Lemmas

lemma skipItems_append (l rest : List BinItem) :
    skipItems l.length (l ++ rest) = some rest := by
  induction l with
  | nil => rfl
  | cons a t ih => simpa [skipItems] using ih

lemma length_flatMap_const {α : Type} (f : α → List BinItem) (k : ℕ)
    (hf : ∀ a, (f a).length = k) (l : List α) :
    (l.flatMap f).length = k * l.length := by
  induction l with
  | nil => rfl
  | cons a t ih =>
    simp only [List.flatMap_cons, List.length_append, hf, ih, List.length_cons]
    ring

lemma streamSize_append (l1 l2 : List BinItem) :
    streamSize (l1 ++ l2) = streamSize l1 + streamSize l2 := by
  simp [streamSize]

lemma streamSize_flatMap_const {α : Type} (f : α → List BinItem) (k : ℕ)
    (hf : ∀ a, streamSize (f a) = k) (l : List α) :
    streamSize (l.flatMap f) = k * l.length := by
  induction l with
  | nil => rfl
  | cons a t ih =>
    simp only [List.flatMap_cons, streamSize_append, hf, ih, List.length_cons]
    ring

lemma streamSize_map_index (l : List ℕ) :
    streamSize (l.map indexToUInt16) = 2 * l.length := by
  induction l with
  | nil => rfl
  | cons a t ih =>
    have hstep : streamSize (indexToUInt16 a :: t.map indexToUInt16) =
        2 + streamSize (t.map indexToUInt16) := by
      simp [streamSize, indexToUInt16, itemSize]
    rw [List.map_cons, hstep, ih, List.length_cons]
    ring

lemma readSectionCounts_spec (n1 n2 n3 n4 : ℕ) (r1 r2 r3 r4 : List BinItem)
    (h1 : r1.length = 8 * n1) (h2 : r2.length = 8 * n2)
    (h3 : r3.length = 8 * n3) (h4 : r4.length = 8 * n4) :
    readSectionCounts (BinItem.i32 (n1 : Int)
      :: (r1 ++ (BinItem.i32 (n2 : Int)
        :: (r2 ++ (BinItem.i32 (n3 : Int)
          :: (r3 ++ (BinItem.i32 (n4 : Int) :: r4))))))) =
      some ((n1 : Int), (n2 : Int), (n3 : Int), (n4 : Int)) := by
  have e1 : skipItems (8 * n1) (r1 ++ (BinItem.i32 (n2 : Int)
      :: (r2 ++ (BinItem.i32 (n3 : Int)
        :: (r3 ++ (BinItem.i32 (n4 : Int) :: r4)))))) = some (BinItem.i32 (n2 : Int)
      :: (r2 ++ (BinItem.i32 (n3 : Int)
        :: (r3 ++ (BinItem.i32 (n4 : Int) :: r4))))) := by
    rw [← h1]; exact skipItems_append r1 _
  have e2 : skipItems (8 * n2) (r2 ++ (BinItem.i32 (n3 : Int)
      :: (r3 ++ (BinItem.i32 (n4 : Int) :: r4)))) = some (BinItem.i32 (n3 : Int)
      :: (r3 ++ (BinItem.i32 (n4 : Int) :: r4))) := by
    rw [← h2]; exact skipItems_append r2 _
  have e3 : skipItems (8 * n3) (r3 ++ (BinItem.i32 (n4 : Int) :: r4)) =
      some (BinItem.i32 (n4 : Int) :: r4) := by
    rw [← h3]; exact skipItems_append r3 _
  have e4 : skipItems (8 * n4) r4 = some [] := by
    rw [← h4, ← List.append_nil r4]
    simpa using skipItems_append r4 []
  simp [readSectionCounts, readInt32, Int.toNat_natCast, e1, e2, e3, e4]

lemma readSectionCounts_mapStream (env : Env) (w : UWorld) :
    readSectionCounts (mapStream env w) =
      some ((w.cameras.length : Int), (w.directionalLights.length : Int),
        (w.staticMeshActors.length : Int), (w.skeletalMeshActors.length : Int)) := by
  have hcam : ∀ a, (cameraRecord a).length = 8 := fun a => rfl
  have hlight : ∀ a, (lightRecord env a).length = 8 := fun a => rfl
  have hsm : ∀ a, (staticMeshRecord a).length = 8 := fun a => rfl
  have hsk : ∀ a, (skeletalMeshRecord a).length = 8 := fun a => rfl
  exact readSectionCounts_spec _ _ _ _ _ _ _ _
    (length_flatMap_const _ 8 hcam _) (length_flatMap_const _ 8 hlight _)
    (length_flatMap_const _ 8 hsm _) (length_flatMap_const _ 8 hsk _)

lemma exportStaticMesh_isSome (env : Env) (m : UStaticMesh) (path : String)
    (h : m.renderData.isSome = true) :
    (exportStaticMesh env (some m) path).isSome = true := by
  obtain ⟨lods, hl⟩ := Option.isSome_iff_exists.mp h
  unfold exportStaticMesh
  simp only [hl]
  split <;> [skip; rfl]
  split
  · split <;> rfl
  · split
    · split <;> rfl
    · rfl

lemma exportSkeletalMesh_isSome (env : Env) (m : USkeletalMeshData) (path : String)
    (h : m.renderResource.isSome = true) :
    (exportSkeletalMesh env (some m) path).isSome = true := by
  obtain ⟨lods, hl⟩ := Option.isSome_iff_exists.mp h
  unfold exportSkeletalMesh
  simp only [hl]
  split <;> [skip; rfl]
  split
  · rfl
  · split
    · split <;> rfl
    · rfl

lemma exportSkeleton_isSome (env : Env) (s : Option USkeletonData) (path : String) :
    (exportSkeleton env s path).isSome = true := by
  unfold exportSkeleton
  split <;> [skip; rfl]
  match s with
  | none => rfl
  | some sk =>
    simp only
    split
    · rfl
    · split
      · split <;> rfl
      · rfl

lemma exportAnimSequence_isSome (env : Env) (a : Option UAnimSequenceData) (path : String) :
    (exportAnimSequence env a path).isSome = true := by
  unfold exportAnimSequence
  split <;> [skip; rfl]
  match a with
  | none => rfl
  | some an =>
    simp only
    split
    · rfl
    · split
      · split <;> rfl
      · rfl

lemma sideFilesOfStaticActor_isSome (env : Env) (a : AStaticMeshActorData)
    (h : a.staticMesh.renderData.isSome = true) :
    (sideFilesOfStaticActor env a).isSome = true := by
  obtain ⟨r, hr⟩ := Option.isSome_iff_exists.mp
    (exportStaticMesh_isSome env a.staticMesh
      (env.projectSavedDir ++ "Bin/StaticMesh/"
        ++ resourceNameOfPath a.staticMesh.pathName ++ ".stm") h)
  simp [sideFilesOfStaticActor, hr]

lemma sideFilesOfSkeletalActor_isSome (env : Env) (a : ASkeletalMeshActorData)
    (h : a.skeletalMesh.renderResource.isSome = true) :
    (sideFilesOfSkeletalActor env a).isSome = true := by
  unfold sideFilesOfSkeletalActor
  obtain ⟨r1, h1⟩ := Option.isSome_iff_exists.mp
    (exportSkeletalMesh_isSome env a.skeletalMesh
      (env.projectSavedDir ++ "Bin/SkeletalMesh/"
        ++ resourceNameOfPath a.skeletalMesh.pathName ++ ".skm") h)
  obtain ⟨r2, h2⟩ := Option.isSome_iff_exists.mp
    (exportSkeleton_isSome env (some a.skeleton)
      (env.projectSavedDir ++ "Bin/SkeletalMesh/Skeleton/"
        ++ resourceNameOfPath a.skeletalMesh.pathName ++ ".skt"))
  obtain ⟨r3, h3⟩ := Option.isSome_iff_exists.mp
    (exportAnimSequence_isSome env a.animToPlay
      (env.projectSavedDir ++ "Bin/SkeletalMesh/AnimSequence/"
        ++ resourceNameOfPath a.skeletalMesh.pathName ++ ".anm"))
  simp [h1, h2, h3]

lemma mapM_isSome {α β : Type} (g : α → Option β) (l : List α)
    (h : ∀ a ∈ l, (g a).isSome = true) : ∃ bs, l.mapM g = some bs := by
  induction l with
  | nil => exact ⟨[], rfl⟩
  | cons a t ih =>
    obtain ⟨b, hb⟩ := Option.isSome_iff_exists.mp (h a (List.mem_cons_self a t))
    obtain ⟨bs, hbs⟩ := ih (fun x hx => h x (List.mem_cons_of_mem a hx))
    refine ⟨b :: bs, ?_⟩
    rw [List.mapM_cons, hb, hbs]
    rfl

end Lemmas

section SampleData

/-- A host environment in which every file operation succeeds. -/
def envAll : Env :=
  { isFilenameValidForSaving := fun _ => true
    createFileWriterOk := fun _ => true
    saveStringToFileOk := fun _ => true
    projectSavedDir := "Saved/"
    fromSRGBColor := fun c =>
      ⟨(c.r : ℤ), (c.g : ℤ), (c.b : ℤ), (c.a : ℤ)⟩ }

/-- A sample vertex. -/
def vA : MeshVertex :=
  { position := ⟨0, 0, 0⟩, tangentZ := ⟨0, 0, 1, 1⟩, uv := ⟨0, 0⟩ }

/-- A second, distinct sample vertex. -/
def vB : MeshVertex :=
  { position := ⟨5, 6, 7⟩, tangentZ := ⟨0, 0, 1, 1⟩, uv := ⟨1, 1⟩ }

/-- A vertex whose packed tangent has handedness −1. -/
def vTanNeg : MeshVertex :=
  { position := ⟨1, 2, 3⟩, tangentZ := ⟨0, 0, 1, -1⟩, uv := ⟨0, 0⟩ }

/-- LOD 0 of a two-LOD sample mesh. -/
def lodA : MeshLOD := { vertices := [vA], indices := [0] }

/-- LOD 1 of a two-LOD sample mesh. -/
def lodB : MeshLOD := { vertices := [vB], indices := [0] }

/-- A sample mesh with two LODs. -/
def twoLODMesh : UStaticMesh :=
  { name := "TwoLOD", pathName := "/Game/TwoLOD.TwoLOD"
    renderData := some [lodA, lodB] }

/-- The skeletal counterpart with two LODs. -/
def twoLODSkm : USkeletalMeshData :=
  { name := "TwoLODSk", pathName := "/Game/TwoLODSk.TwoLODSk"
    renderResource := some [lodA, lodB] }

/-- A mesh whose RenderData pointer is null. -/
def meshNoRenderData : UStaticMesh :=
  { name := "NoRD", pathName := "/Game/NoRD.NoRD", renderData := none }

/-- The eight corner positions of a unit cube. -/
def cubeCorners : List FVector :=
  [⟨0, 0, 0⟩, ⟨1, 0, 0⟩, ⟨1, 1, 0⟩, ⟨0, 1, 0⟩,
   ⟨0, 0, 1⟩, ⟨1, 0, 1⟩, ⟨1, 1, 1⟩, ⟨0, 1, 1⟩]

/-- A cube LOD 0: 8 vertices and 36 triangle-list indices. -/
def cubeLOD : MeshLOD :=
  { vertices := cubeCorners.map
      (fun p => { position := p, tangentZ := ⟨0, 0, 1, 1⟩, uv := ⟨0, 0⟩ })
    indices :=
      [0, 1, 2, 0, 2, 3, 4, 6, 5, 4, 7, 6,
       0, 4, 5, 0, 5, 1, 1, 5, 6, 1, 6, 2,
       2, 6, 7, 2, 7, 3, 3, 7, 4, 3, 4, 0] }

/-- A static mesh holding the cube as its only LOD. -/
def cubeMesh : UStaticMesh :=
  { name := "Cube", pathName := "/Game/Cube.Cube", renderData := some [cubeLOD] }

/-- A one-vertex LOD whose only index value is 65537. -/
def idxLOD65537 : MeshLOD := { vertices := [vA], indices := [65537] }

/-- The same LOD with index value 1. -/
def idxLOD1 : MeshLOD := { vertices := [vA], indices := [1] }

/-- A one-bone skeleton with its reference pose. -/
def skel1 : USkeletonData :=
  { boneInfos := [{ name := "root", parentIndex := -1 }]
    bonePose := [{ rotation := ⟨0, 0, 0, 1⟩, translation := ⟨0, 0, 0⟩,
                   scale3D := ⟨1, 1, 1⟩ }] }

/-- A one-track animation sequence. -/
def anim1 : UAnimSequenceData :=
  { rawAnimationData := [{ scaleKeys := [⟨1, 1, 1⟩], rotKeys := [⟨0, 0, 0, 1⟩],
                           posKeys := [⟨0, 0, 0⟩] }] }

/-- A sample camera component. -/
def cam1 : UCameraComponent :=
  { location := ⟨10, 20, 30⟩, rotator := ⟨0, 90, 0⟩, fieldOfView := 90, aspect := 2 }

/-- A static-mesh actor instancing the cube at the origin. -/
def smActor1 : AStaticMeshActorData :=
  { transform := { location := ⟨0, 0, 0⟩, rotation := ⟨0, 0, 0, 1⟩ }
    staticMesh := cubeMesh }

/-- A scene with no camera, no light, one static-mesh instance and no
skeletal-mesh instance. -/
def sampleWorld : UWorld :=
  { cameras := [], directionalLights := [], staticMeshActors := [smActor1]
    skeletalMeshActors := [] }

end SampleData

/-- A one-LOD mesh whose only index value is 65537. -/
def idxMesh65537 : UStaticMesh :=
  { name := "Idx", pathName := "/Game/Idx.Idx", renderData := some [idxLOD65537] }

/-- The same mesh with index value 1. -/
def idxMesh1 : UStaticMesh :=
  { name := "Idx", pathName := "/Game/Idx.Idx", renderData := some [idxLOD1] }

/-- Claim C1, evidence of the code bug: a `.stm` export that completes (the
destination file is fully produced, with a non-empty stream) still returns
false, as do completed `.skm`, `.skt` and `.anm` exports — the binary
branches fall through to the final `return false` after writing the file. -/
theorem completedBinaryExportReturnsFalse :
    exportStaticMesh envAll (some twoLODMesh) "two.stm" =
      some (false, [("two.stm", FileContent.bin (staticLODItems lodA))]) ∧
    staticLODItems lodA ≠ [] ∧
    exportSkeletalMesh envAll (some twoLODSkm) "two.skm" =
      some (false, [("two.skm", FileContent.bin (skeletalLODItems lodA))]) ∧
    exportSkeleton envAll (some skel1) "s.skt" =
      some (false, [("s.skt", FileContent.bin (skeletonStream skel1))]) ∧
    exportAnimSequence envAll (some anim1) "a.anm" =
      some (false, [("a.anm", FileContent.bin (animStream anim1))]) := by
  decide

/-- Claim C2, counterexample: on a two-LOD mesh the JSON path serializes an
entry for LOD index 1 carrying the second LOD's vertices, so LODs after the
first are encoded in the output. -/
theorem jsonPathEncodesLaterLODs :
    exportStaticMesh envAll (some twoLODMesh) "two.json" =
      some (true, [("two.json",
        FileContent.jsonMesh (staticMeshJsonDoc "TwoLOD" [lodA, lodB]))]) ∧
    (staticMeshJsonDoc "TwoLOD" [lodA, lodB]).lods =
      [jsonLODOfMeshLOD 0 lodA, jsonLODOfMeshLOD 1 lodB] ∧
    (jsonLODOfMeshLOD 1 lodB).vertices = [⟨5, 6, 7⟩] := by
  decide

/-- Claim C2 as amended: the binary `.stm` and `.skm` paths serialize only
LOD index 0 (the output never depends on the later LODs), while the JSON
static-mesh path serializes one entry per LOD of the whole source array. -/
theorem binaryOnlyLOD0JsonAllLODs (env : Env) (m : UStaticMesh)
    (sk : USkeletalMeshData) (pStm pSkm pJson : String)
    (lod0 lod0s : MeshLOD) (rest rests : List MeshLOD)
    (hv1 : env.isFilenameValidForSaving pStm = true)
    (hj1 : fstrEndsWith pStm ".json" = false)
    (hs1 : fstrEndsWith pStm ".stm" = true)
    (hw1 : env.createFileWriterOk pStm = true)
    (hm : m.renderData = some (lod0 :: rest))
    (hv2 : env.isFilenameValidForSaving pSkm = true)
    (hj2 : fstrEndsWith pSkm ".json" = false)
    (hs2 : fstrEndsWith pSkm ".skm" = true)
    (hw2 : env.createFileWriterOk pSkm = true)
    (hsk : sk.renderResource = some (lod0s :: rests))
    (hv3 : env.isFilenameValidForSaving pJson = true)
    (hj3 : fstrEndsWith pJson ".json" = true)
    (hsave : env.saveStringToFileOk pJson = true) :
    exportStaticMesh env (some m) pStm =
      some (false, [(pStm, FileContent.bin (staticLODItems lod0))]) ∧
    exportSkeletalMesh env (some sk) pSkm =
      some (false, [(pSkm, FileContent.bin (skeletalLODItems lod0s))]) ∧
    exportStaticMesh env (some m) pJson =
      some (true, [(pJson,
        FileContent.jsonMesh (staticMeshJsonDoc m.name (lod0 :: rest)))]) := by
  refine ⟨?_, ?_, ?_⟩
  · simp [exportStaticMesh, hv1, hj1, hs1, hw1, hm, stmStream]
  · simp [exportSkeletalMesh, hv2, hj2, hs2, hw2, hsk, skmStream]
  · simp [exportStaticMesh, hv3, hj3, hsave, hm]

/-- Witness for the amended C2 at the concrete two-LOD mesh. -/
theorem binaryOnlyLOD0JsonAllLODs_witness :
    exportStaticMesh envAll (some twoLODMesh) "w2.stm" =
      some (false, [("w2.stm", FileContent.bin (staticLODItems lodA))]) ∧
    exportSkeletalMesh envAll (some twoLODSkm) "w2.skm" =
      some (false, [("w2.skm", FileContent.bin (skeletalLODItems lodA))]) ∧
    exportStaticMesh envAll (some twoLODMesh) "w2.json" =
      some (true, [("w2.json",
        FileContent.jsonMesh (staticMeshJsonDoc twoLODMesh.name (lodA :: [lodB])))]) :=
  binaryOnlyLOD0JsonAllLODs envAll twoLODMesh twoLODSkm "w2.stm" "w2.skm" "w2.json"
    lodA lodA [lodB] [lodB] rfl (by decide) (by decide) rfl rfl
    rfl (by decide) (by decide) rfl rfl rfl (by decide) rfl

/-- Claim C3, evidence of the code bug: with a null `RenderData` the `.stm`
branch reaches the invalid dereference (modelled `none`) instead of the
graceful false return, while the JSON branch of the very same function
checks the pointer and fails gracefully. -/
theorem nullRenderDataStmCrash :
    exportStaticMesh envAll (some meshNoRenderData) "nord.stm" = none ∧
    exportStaticMesh envAll (some meshNoRenderData) "nord.json" = some (false, []) := by
  decide

/-- Claim C4, counterexample: for the packed tangent (0,0,1,−1) the static
path encodes normal (0,0,−1) while the skeletal path encodes (0,0,1), so
the two binary paths do not share one tangent-to-normal convention. -/
theorem tangentConventionCounterexample :
    staticMeshNormal ⟨0, 0, 1, -1⟩ = ⟨0, 0, -1⟩ ∧
    skeletalMeshNormal ⟨0, 0, 1, -1⟩ = ⟨0, 0, 1⟩ ∧
    staticVertexItems vTanNeg ≠ skeletalVertexItems vTanNeg := by
  decide

/-- Claim C4 as amended: the `.stm` path computes the normal as the tangent
XYZ scaled by the handedness W, the `.skm` path takes the raw XYZ, and the
two conventions agree exactly when W = 1. -/
theorem tangentConventions (t : FVector4) (hw : t.w = 1) :
    staticMeshNormal t = ⟨t.x * t.w, t.y * t.w, t.z * t.w⟩ ∧
    skeletalMeshNormal t = ⟨t.x, t.y, t.z⟩ ∧
    staticMeshNormal t = skeletalMeshNormal t := by
  refine ⟨rfl, rfl, ?_⟩
  simp [staticMeshNormal, skeletalMeshNormal, FVector.scale, hw]

/-- Witness for the amended C4 at a concrete tangent with W = 1. -/
theorem tangentConventions_witness :
    staticMeshNormal ⟨2, 3, 4, 1⟩ = skeletalMeshNormal ⟨2, 3, 4, 1⟩ :=
  (tangentConventions ⟨2, 3, 4, 1⟩ rfl).2.2

/-- Claim C5: the binary mesh stream is exactly 4 + V·32 + 4 + I·2 bytes:
an int32 vertex count, 32 bytes per vertex (12 position + 12 normal +
8 UV), an int32 index count and 2 bytes per index. -/
theorem binaryStreamSize (env : Env) (m : UStaticMesh) (path : String)
    (lod0 : MeshLOD) (rest : List MeshLOD)
    (hv : env.isFilenameValidForSaving path = true)
    (hj : fstrEndsWith path ".json" = false)
    (hs : fstrEndsWith path ".stm" = true)
    (hw : env.createFileWriterOk path = true)
    (hm : m.renderData = some (lod0 :: rest))
    (_hcount : lod0.vertices.length ≤ 65535) :
    exportStaticMesh env (some m) path =
      some (false, [(path, FileContent.bin (staticLODItems lod0))]) ∧
    streamSize (staticLODItems lod0) =
      4 + lod0.vertices.length * 32 + 4 + lod0.indices.length * 2 := by
  constructor
  · simp [exportStaticMesh, hv, hj, hs, hw, hm, stmStream]
  · have hvtx : ∀ v : MeshVertex, streamSize (staticVertexItems v) = 32 :=
      fun v => rfl
    simp only [staticLODItems, streamSize_append,
      streamSize_flatMap_const _ 32 hvtx, streamSize_map_index]
    simp only [streamSize, List.map_cons, List.map_nil, itemSize, List.sum_cons,
      List.sum_nil]
    ring

/-- Witness for C5: the cube LOD (V = 8, I = 36) yields exactly 336 bytes. -/
theorem binaryStreamSize_witness :
    exportStaticMesh envAll (some cubeMesh) "cube.stm" =
      some (false, [("cube.stm", FileContent.bin (staticLODItems cubeLOD))]) ∧
    streamSize (staticLODItems cubeLOD) = 336 := by
  have h := binaryStreamSize envAll cubeMesh "cube.stm" cubeLOD []
    rfl (by decide) (by decide) rfl rfl (by decide)
  exact ⟨h.1, h.2.trans (by decide)⟩

/-- Claim C6: binary index values are encoded modulo 65536 in 16 bits, on
the static and the skeletal path alike; index 65537 produces the same
stream as index 1. -/
theorem binaryIndexTruncation :
    (∀ i : ℕ, indexToUInt16 i = BinItem.u16 (i % 65536)) ∧
    (∀ i : ℕ, indexToUInt16 i = indexToUInt16 (i % 65536)) ∧
    staticLODItems idxLOD65537 = staticLODItems idxLOD1 ∧
    skeletalLODItems idxLOD65537 = skeletalLODItems idxLOD1 ∧
    exportStaticMesh envAll (some idxMesh65537) "i.stm" =
      exportStaticMesh envAll (some idxMesh1) "i.stm" := by
  refine ⟨fun i => rfl, fun i => ?_, by decide, by decide, by decide⟩
  simp [indexToUInt16, Nat.mod_mod_of_dvd]

/-- Claim C7: the composite `.map` file is four length-prefixed sections in
the fixed order cameras, lights, static-mesh instances, skeletal-mesh
instances; reading the stream back recovers the four section counts. -/
theorem exportMapFourSections (env : Env) (w : UWorld) (path : String)
    (hmap : fstrEndsWith path ".map" = true)
    (hwr : env.createFileWriterOk path = true)
    (hsm : ∀ a ∈ w.staticMeshActors, a.staticMesh.renderData.isSome = true)
    (hsk : ∀ a ∈ w.skeletalMeshActors, a.skeletalMesh.renderResource.isSome = true) :
    (∃ sideFiles, exportMap env (some w) path =
      some (true, (path, FileContent.bin (mapStream env w)) :: sideFiles)) ∧
    readSectionCounts (mapStream env w) =
      some ((w.cameras.length : Int), (w.directionalLights.length : Int),
        (w.staticMeshActors.length : Int), (w.skeletalMeshActors.length : Int)) := by
  constructor
  · obtain ⟨smFiles, hsmF⟩ := mapM_isSome (sideFilesOfStaticActor env) _
      (fun a ha => sideFilesOfStaticActor_isSome env a (hsm a ha))
    obtain ⟨skFiles, hskF⟩ := mapM_isSome (sideFilesOfSkeletalActor env) _
      (fun a ha => sideFilesOfSkeletalActor_isSome env a (hsk a ha))
    have hsmL : List.mapM.loop (sideFilesOfStaticActor env) w.staticMeshActors []
        = some smFiles := hsmF
    have hskL : List.mapM.loop (sideFilesOfSkeletalActor env) w.skeletalMeshActors []
        = some skFiles := hskF
    exact ⟨smFiles.flatten ++ skFiles.flatten,
      by simp [exportMap, hmap, hwr, hsmF, hskF, hsmL, hskL]⟩
  · exact readSectionCounts_mapStream env w

/-- Witness for C7: the 0-camera, 0-light, 1-static-instance, 0-skeletal
scene reads back as counts 0, 0, 1, 0. -/
theorem exportMapFourSections_witness :
    readSectionCounts (mapStream envAll sampleWorld) = some (0, 0, 1, 0) :=
  (exportMapFourSections envAll sampleWorld "scene.map"
    (by decide) rfl (by decide) (by decide)).2

/-- Claim C8: each composite-file camera record is the world location, the
look-at target at exactly 100 units along the forward direction, the FOV
and the aspect value, in that order, and the camera section of the
composite stream is built from these records. -/
theorem cameraRecordLayout (a : ACameraActor) :
    cameraRecord a =
      [BinItem.f32 a.transform.location.x, BinItem.f32 a.transform.location.y,
       BinItem.f32 a.transform.location.z,
       BinItem.f32 (a.transform.location.x + a.transform.rotation.vector.x * 100),
       BinItem.f32 (a.transform.location.y + a.transform.rotation.vector.y * 100),
       BinItem.f32 (a.transform.location.z + a.transform.rotation.vector.z * 100),
       BinItem.f32 a.fieldOfView, BinItem.f32 a.aspect] ∧
    (∀ (env : Env) (w : UWorld), ∃ rest, mapStream env w =
      BinItem.i32 (w.cameras.length : Int)
        :: (w.cameras.flatMap cameraRecord ++ rest)) := by
  constructor
  · simp [cameraRecord, serFVector, FVector.add, FVector.scale]
  · intro env w
    exact ⟨_, rfl⟩

/-- Claim C9, counterexample: `ExportCamera` never inspects the destination
suffix, so with the unrecognized suffix ".xyz" it still writes its JSON file
and returns true. -/
theorem unrecognizedSuffixCounterexample :
    (fstrEndsWith "camera.xyz" ".json" = false ∧
     fstrEndsWith "camera.xyz" ".stm" = false ∧
     fstrEndsWith "camera.xyz" ".skm" = false ∧
     fstrEndsWith "camera.xyz" ".skt" = false ∧
     fstrEndsWith "camera.xyz" ".anm" = false ∧
     fstrEndsWith "camera.xyz" ".map" = false) ∧
    exportCamera envAll (some cam1) "camera.xyz" =
      some (true, [("camera.xyz", FileContent.jsonCamera (cameraJsonDoc cam1))]) := by
  decide

/-- Claim C9 as amended: the five suffix-dispatching export functions return
false and create no file on an unrecognized suffix, while `ExportCamera`
ignores the suffix and writes its JSON document regardless. -/
theorem unrecognizedSuffixNoDefaultFormat (env : Env) (m : UStaticMesh)
    (sk : USkeletalMeshData) (s : USkeletonData) (an : UAnimSequenceData)
    (w : UWorld) (path : String)
    (hv : env.isFilenameValidForSaving path = true)
    (hjson : fstrEndsWith path ".json" = false)
    (hstm : fstrEndsWith path ".stm" = false)
    (hskm : fstrEndsWith path ".skm" = false)
    (hskt : fstrEndsWith path ".skt" = false)
    (hanm : fstrEndsWith path ".anm" = false)
    (hmapx : fstrEndsWith path ".map" = false) :
    exportStaticMesh env (some m) path = some (false, []) ∧
    exportSkeletalMesh env (some sk) path = some (false, []) ∧
    exportSkeleton env (some s) path = some (false, []) ∧
    exportAnimSequence env (some an) path = some (false, []) ∧
    exportMap env (some w) path = some (false, []) ∧
    (env.saveStringToFileOk path = true →
      exportCamera env (some cam1) path =
        some (true, [(path, FileContent.jsonCamera (cameraJsonDoc cam1))])) := by
  refine ⟨?_, ?_, ?_, ?_, ?_, fun hsave => ?_⟩
  · simp [exportStaticMesh, hv, hjson, hstm]
  · simp [exportSkeletalMesh, hv, hjson, hskm]
  · simp [exportSkeleton, hv, hjson, hskt]
  · simp [exportAnimSequence, hv, hjson, hanm]
  · simp [exportMap, hmapx]
  · simp [exportCamera, hv, hsave]

/-- Witness for the amended C9 at the unrecognized suffix ".xyz". -/
theorem unrecognizedSuffixNoDefaultFormat_witness :
    exportStaticMesh envAll (some twoLODMesh) "asset.xyz" = some (false, []) ∧
    exportSkeletalMesh envAll (some twoLODSkm) "asset.xyz" = some (false, []) ∧
    exportSkeleton envAll (some skel1) "asset.xyz" = some (false, []) ∧
    exportAnimSequence envAll (some anim1) "asset.xyz" = some (false, []) ∧
    exportMap envAll (some sampleWorld) "asset.xyz" = some (false, []) ∧
    exportCamera envAll (some cam1) "asset.xyz" =
      some (true, [("asset.xyz", FileContent.jsonCamera (cameraJsonDoc cam1))]) := by
  have h := unrecognizedSuffixNoDefaultFormat envAll twoLODMesh twoLODSkm skel1
    anim1 sampleWorld "asset.xyz" rfl (by decide) (by decide) (by decide)
    (by decide) (by decide) (by decide)
  exact ⟨h.1, h.2.1, h.2.2.1, h.2.2.2.1, h.2.2.2.2.1, h.2.2.2.2.2 rfl⟩

/-- Claim C10: with a `.json` destination the skeletal-mesh, skeleton and
animation exporters build only a file-version object, never save it, return
false and create no file. -/
theorem jsonBranchUnavailable (env : Env) (sk : USkeletalMeshData)
    (s : USkeletonData) (an : UAnimSequenceData) (path : String)
    (hv : env.isFilenameValidForSaving path = true)
    (hjson : fstrEndsWith path ".json" = true) :
    exportSkeletalMesh env (some sk) path = some (false, []) ∧
    exportSkeleton env (some s) path = some (false, []) ∧
    exportAnimSequence env (some an) path = some (false, []) := by
  refine ⟨?_, ?_, ?_⟩ <;>
    simp [exportSkeletalMesh, exportSkeleton, exportAnimSequence, hv, hjson]

/-- Witness for C10 at a concrete `.json` destination. -/
theorem jsonBranchUnavailable_witness :
    exportSkeletalMesh envAll (some twoLODSkm) "a.json" = some (false, []) ∧
    exportSkeleton envAll (some skel1) "a.json" = some (false, []) ∧
    exportAnimSequence envAll (some anim1) "a.json" = some (false, []) :=
  jsonBranchUnavailable envAll twoLODSkm skel1 anim1 "a.json" rfl (by decide)

end ObjectExporter
